import Mathlib

/-!
Shallow embedding of the animated holiday-scene repository.

The embedding translates the animation and state-machine logic of the
source files into Lean definitions:

* `src/types.ts`                    — `TreeState`, `PositionData`, `ParticleGroupConfig`
* `src/components/MorphingGroup.tsx`— layout generation and per-frame blending
  for the instanced groups (`morphScatterPos`, `mkPositionData`, `morphData`,
  `morphNewFactor`, `morphRotation`, `morphInstanceTransform`, `morphFrame`)
* `src/unnamed/part_003` (TopStar)  — `starScatterPos`, `starNewFactor`,
  `starRotation`, `starFrame`
* `src/unnamed/part_002` (Logo)     — `logoNewFactor`, `logoRotation`, `logoFrame`
* `src/unnamed/part_001` (snow)     — `snowY`, `snowLoopY`, `snowFrame`
* `src/unnamed/part_000` (App)      — the timer-driven arrangement state machine
  (`AppState`, `runEffect`, `doToggle`, `fireTimer`, `Step`, `Reach`)

JavaScript float arithmetic is embedded as exact real arithmetic; the
library helpers used by the code (THREE.MathUtils.lerp, Vector3.lerpVectors,
Math.cbrt, the JS remainder operator) are embedded by their documented
definitions.
-/

noncomputable section

/-- Embeds `THREE.MathUtils.lerp(x, y, t) = (1 - t) * x + t * y` (no clamping
of `t` happens in the library function). -/
def lerp (x y t : ℝ) : ℝ := (1 - t) * x + t * y

/-- Embeds `Math.cbrt` (sign-preserving cube root); in this repository it is
only applied to values drawn from `Math.random()`, which are nonnegative. -/
def jsCbrt (x : ℝ) : ℝ := if 0 ≤ x then x ^ ((1 : ℝ) / 3) else -((-x) ^ ((1 : ℝ) / 3))

/-- Truncation toward zero, as used by the JavaScript `%` operator. -/
def jsTrunc (x : ℝ) : ℝ := if 0 ≤ x then (⌊x⌋ : ℝ) else (⌈x⌉ : ℝ)

/-- Embeds the JavaScript remainder operator `a % n`: the result has the sign
of the dividend `a` (truncated division), unlike mathematical modulo. -/
def jsRem (a n : ℝ) : ℝ := a - n * jsTrunc (a / n)

/-- A 3-component vector, embedding `THREE.Vector3` (and `THREE.Euler` used as
a plain triple of angles). -/
@[ext]
structure Vec3 where
  x : ℝ
  y : ℝ
  z : ℝ

/-- Embeds `THREE.Vector3.lerpVectors(v1, v2, alpha)`:
componentwise `v1 + (v2 - v1) * alpha`, with no clamping of `alpha`. -/
def lerpVec (a b : Vec3) (t : ℝ) : Vec3 :=
  ⟨a.x + (b.x - a.x) * t, a.y + (b.y - a.y) * t, a.z + (b.z - a.z) * t⟩

/-- Squared Euclidean norm of a `Vec3`. -/
def normSq (v : Vec3) : ℝ := v.x ^ 2 + v.y ^ 2 + v.z ^ 2

/-- Embeds the `TreeState` enum of `src/types.ts`. -/
inductive TreeState where
  | SCATTERED
  | TREE_SHAPE
deriving DecidableEq

/-- Embeds the `PositionData` interface of `src/types.ts`. -/
structure PositionData where
  scatterPos : Vec3
  treePos : Vec3
  rotation : Vec3
  scale : ℝ

/-- Embeds the `geometryType` union of `src/types.ts`. -/
inductive GeometryType where
  | sphere
  | box
  | cylinder
  | dodecahedron
  | giftBox
  | candyCane
deriving DecidableEq

/-- Embeds the `ParticleGroupConfig` interface of `src/types.ts`. -/
structure ParticleGroupConfig where
  count : ℕ
  color : String
  metalness : ℝ
  roughness : ℝ
  geometryType : GeometryType
  scaleMultiplier : ℝ
  emissiveIntensity : Option ℝ
  envMapIntensity : Option ℝ

/-- Target blend factor determined by the current arrangement:
`state === TreeState.TREE_SHAPE ? 1 : 0` (MorphingGroup.tsx line 138,
part_002 line 79, part_003 line 64). -/
def targetFactor (st : TreeState) : ℝ := if st = TreeState.TREE_SHAPE then 1 else 0

/-- Per-frame blend-factor update of `MorphingGroup` (MorphingGroup.tsx lines
142-143): `THREE.MathUtils.lerp(currentFactor, targetFactor, delta * speed)`
with `speed = 2.5`. The interpolation weight `delta * speed` is passed to
`lerp` unclamped. -/
def morphNewFactor (current : ℝ) (st : TreeState) (delta : ℝ) : ℝ :=
  lerp current (targetFactor st) (delta * 2.5)

/-- Per-frame blend-factor update of a `LogoElement` (part_002 lines 83-84):
`speed = 2.0`, weight unclamped. -/
def logoNewFactor (current : ℝ) (st : TreeState) (delta : ℝ) : ℝ :=
  lerp current (targetFactor st) (delta * 2.0)

/-- Per-frame blend-factor update of `TopStar` (part_003 lines 66-67):
`speed = 2.0`, weight unclamped. -/
def starNewFactor (current : ℝ) (st : TreeState) (delta : ℝ) : ℝ :=
  lerp current (targetFactor st) (delta * 2.0)

/-- Follows the spec's words (for refinement comparison only): the spec claims
`factor <- lerp(factor, target, clamp(delta * speed, 0, 1))`, i.e. the
interpolation weight clamped to the unit interval before use. -/
def specClampedFactorUpdate (current : ℝ) (st : TreeState) (delta speed : ℝ) : ℝ :=
  lerp current (targetFactor st) (min (max (delta * speed) 0) 1)

/-- Scatter position of a MorphingGroup instance (MorphingGroup.tsx lines
30-39): `r = 35 * cbrt(random)`, `theta = random * 2 * pi`,
`phi = acos(2 * random - 1)`, converted to Cartesian coordinates. The
arguments `u0 u1 u2` are the three successive `Math.random()` draws. -/
def morphScatterPos (u0 u1 u2 : ℝ) : Vec3 :=
  let rScatter := 35 * jsCbrt u0
  let thetaScatter := u1 * 2 * Real.pi
  let phiScatter := Real.arccos (2 * u2 - 1)
  ⟨rScatter * Real.sin phiScatter * Real.cos thetaScatter,
   rScatter * Real.sin phiScatter * Real.sin thetaScatter,
   rScatter * Real.cos phiScatter⟩

/-- Follows the spec's words (for refinement comparison only): position
sampled uniformly inside a sphere of radius `R` via `radius = R * cbrt(u)`,
`theta = u * 2 * pi`, `phi = acos(2 * u - 1)`. -/
def specSphereSample (R u0 u1 u2 : ℝ) : Vec3 :=
  let r := R * jsCbrt u0
  let theta := u1 * 2 * Real.pi
  let phi := Real.arccos (2 * u2 - 1)
  ⟨r * Real.sin phi * Real.cos theta,
   r * Real.sin phi * Real.sin theta,
   r * Real.cos phi⟩

/-- Scatter position of the star (part_003 lines 21-30): the radius is the
FIXED constant `40` (no cube-root draw); only the direction is random,
`theta = random * pi * 2`, `phi = acos(2 * random - 1)`. -/
def starScatterPos (u0 u1 : ℝ) : Vec3 :=
  let r : ℝ := 40
  let theta := u0 * Real.pi * 2
  let phi := Real.arccos (2 * u1 - 1)
  ⟨r * Real.sin phi * Real.cos theta,
   r * Real.sin phi * Real.sin theta,
   r * Real.cos phi⟩

/-- One element of the per-instance layout array of a MorphingGroup
(MorphingGroup.tsx lines 29-63). The argument `u` lists the ten successive
`Math.random()` draws used for this instance, in source order. -/
def mkPositionData (scaleMultiplier : ℝ) (u : ℕ → ℝ) : PositionData :=
  let scatterPos := morphScatterPos (u 0) (u 1) (u 2)
  let hNormalized := u 3
  let y := hNormalized * 18 - 9
  let maxRadiusAtY := (1 - (y + 9) / 18) * 6 + 0.5
  let radius := u 4 * maxRadiusAtY
  let angle := y * 5 + u 5 * Real.pi * 2
  let treePos : Vec3 := ⟨Real.cos angle * radius, y, Real.sin angle * radius⟩
  let rotation : Vec3 := ⟨u 6 * Real.pi, u 7 * Real.pi, u 8 * Real.pi⟩
  let scale := (0.5 + u 9 * 1.5) * scaleMultiplier
  ⟨scatterPos, treePos, rotation, scale⟩

/-- The per-instance layout array generated by the `data` useMemo of a
MorphingGroup (MorphingGroup.tsx lines 25-66): `count` independent instances,
`us i` being the random draws consumed by instance `i`. -/
def morphData (count : ℕ) (scaleMultiplier : ℝ) (us : ℕ → ℕ → ℝ) : List PositionData :=
  (List.range count).map (fun i => mkPositionData scaleMultiplier (us i))

/-- Rotation of a MorphingGroup instance (MorphingGroup.tsx lines 159-175):
base rotation plus a time-proportional spin (`0.5` per axis for candy canes,
`0.2` otherwise). It does not depend on the blend factor and is never
snapped. -/
def morphRotation (isCandyCane : Bool) (item : PositionData) (time : ℝ) : Vec3 :=
  if isCandyCane then
    ⟨item.rotation.x + time * 0.5, item.rotation.y + time * 0.5, item.rotation.z⟩
  else
    ⟨item.rotation.x + time * 0.2, item.rotation.y + time * 0.2, item.rotation.z⟩

/-- A per-instance transform written into an instanced mesh (position,
rotation, scale). -/
structure Transform3 where
  position : Vec3
  rotation : Vec3
  scale : ℝ

/-- The transform computed for instance `i` of a MorphingGroup on one frame
(MorphingGroup.tsx lines 148-178): lerped position plus floating overlay,
time-driven rotation, static scale. -/
def morphInstanceTransform (isCandyCane : Bool) (time newFactor : ℝ) (i : ℕ)
    (item : PositionData) : Transform3 :=
  let basePos := lerpVec item.scatterPos item.treePos newFactor
  let floatIntensity := 1 - newFactor * 0.8
  let floatY := Real.sin (time + (i : ℝ) * 10) * 0.5 * floatIntensity
  let floatX := Real.cos (time * 0.5 + (i : ℝ) * 5) * 0.5 * floatIntensity
  { position := ⟨basePos.x + floatX, basePos.y + floatY, basePos.z⟩
    rotation := morphRotation isCandyCane item time
    scale := item.scale }

/-- Mutable render state attached to a MorphingGroup's instanced mesh:
`userData.factor` (absent before the first frame) and the instance matrices. -/
structure MorphMesh where
  factor : Option ℝ
  transforms : List Transform3

/-- One `useFrame` callback of a MorphingGroup (MorphingGroup.tsx lines
135-197). When the mesh ref is not yet initialized the callback returns
immediately and nothing changes; otherwise it updates `userData.factor` and
rewrites every instance matrix. -/
def morphFrame (state : TreeState) (isCandyCane : Bool) (data : List PositionData)
    (delta time : ℝ) : Option MorphMesh → Option MorphMesh
  | none => none
  | some m =>
    let newFactor := morphNewFactor (m.factor.getD 0) state delta
    some { factor := some newFactor
           transforms := data.mapIdx
             (fun i item => morphInstanceTransform isCandyCane time newFactor i item) }

/-- Component-level state of one mounted MorphingGroup: the identity key of
the `config` prop object last seen by the `data` useMemo, the generated
layout array, and the render-object state. -/
structure MorphComponent where
  configKey : ℕ
  data : List PositionData
  mesh : Option MorphMesh

/-- A re-render of a mounted MorphingGroup. The `data` useMemo has dependency
array `[config]`, which React compares by reference; Scene.tsx passes a fresh
inline object literal as `config` on every render, so the reference (modelled
by `newKey`) differs from the stored one and the memo body re-runs, drawing
fresh randoms `us`. Only if the same config object were passed again would the
cached array be kept. -/
def morphRerender (newKey : ℕ) (cfg : ParticleGroupConfig) (us : ℕ → ℕ → ℝ)
    (c : MorphComponent) : MorphComponent :=
  if newKey = c.configKey then c
  else { c with configKey := newKey, data := morphData cfg.count cfg.scaleMultiplier us }

/-- One animation frame at component level: the `useFrame` callback reads the
memoized `data` array and writes only the mesh state. -/
def morphComponentFrame (state : TreeState) (isCandyCane : Bool) (delta time : ℝ)
    (c : MorphComponent) : MorphComponent :=
  { c with mesh := morphFrame state isCandyCane c.data delta time c.mesh }

/-- The `scatterConfig` useMemo of a LogoElement (part_002 lines 60-74). -/
structure LogoScatterConfig where
  pos : Vec3
  rotSpeed : Vec3
  randomPhase : ℝ

/-- Rotation handling of a LogoElement (part_002 lines 91-108): snapped to
the canonical flat orientation when the factor exceeds `0.95`, otherwise the
phase-offset tumble scaled by `1 - factor`. -/
def logoRotation (time : ℝ) (cfg : LogoScatterConfig) (newFactor : ℝ) : Vec3 :=
  if 0.95 < newFactor then ⟨0, 0, 0⟩
  else
    let t := time + cfg.randomPhase
    let tumbleX := t * cfg.rotSpeed.x
    let tumbleY := t * cfg.rotSpeed.y
    let tumbleZ := t * cfg.rotSpeed.z * 0.5
    let invFactor := 1 - newFactor
    ⟨tumbleX * invFactor, tumbleY * invFactor, tumbleZ * invFactor⟩

/-- Mutable render state of a LogoElement's mesh. -/
structure LogoMesh where
  factor : Option ℝ
  position : Vec3
  rotation : Vec3

/-- One `useFrame` callback of a LogoElement (part_002 lines 76-116): no-op
when the mesh ref is not initialized; otherwise factor update, position lerp,
rotation handling, and a small bob once the factor exceeds `0.8`. -/
def logoFrame (state : TreeState) (cfg : LogoScatterConfig) (finalTreePos : Vec3)
    (delta time : ℝ) : Option LogoMesh → Option LogoMesh
  | none => none
  | some m =>
    let newFactor := logoNewFactor (m.factor.getD 0) state delta
    let pos := lerpVec cfg.pos finalTreePos newFactor
    let rot := logoRotation time cfg newFactor
    let pos2 : Vec3 :=
      if 0.8 < newFactor then
        ⟨pos.x, pos.y + Real.sin ((time + cfg.randomPhase) * 1.5) * 0.002, pos.z⟩
      else pos
    some { factor := some newFactor, position := pos2, rotation := rot }

/-- Tree-state position of the star (part_003 line 18). -/
def starTreePos : Vec3 := ⟨0, 10.5, 0⟩

/-- Rotation of the star (part_003 lines 79-84): continuous y-spin, plus an
x/z tumble scaled continuously by `(1 - factor) * 2`; there is no snap at any
factor value. -/
def starRotation (time newFactor : ℝ) : Vec3 :=
  let tumble := (1 - newFactor) * 2
  ⟨Real.sin time * tumble, time * 0.5, Real.cos (time * 0.8) * tumble⟩

/-- Mutable render state of the star group. -/
structure StarMesh where
  factor : Option ℝ
  position : Vec3
  rotation : Vec3
  scale : ℝ

/-- One `useFrame` callback of the star (part_003 lines 60-113). The light
and material intensities are separately guarded Option state; when the main
group ref is not initialized everything is left unchanged. -/
def starFrame (state : TreeState) (scatterPos : Vec3) (delta time : ℝ)
    (mesh : Option StarMesh) (light material : Option ℝ) :
    Option StarMesh × Option ℝ × Option ℝ :=
  match mesh with
  | none => (none, light, material)
  | some m =>
    let newFactor := starNewFactor (m.factor.getD 0) state delta
    let pos := lerpVec scatterPos starTreePos newFactor
    let rot := starRotation time newFactor
    let scaleBase := lerp 0.8 1.2 newFactor
    let pulseScale := 1 + Real.sin (time * 3) * 0.05
    let pulse := Real.sin (time * 3)
    let light2 := light.map (fun _ => max 0 (20 * newFactor + pulse * 5 * newFactor))
    let material2 := material.map (fun _ => 0.5 + (4.5 + pulse * 1.5) * newFactor)
    (some { factor := some newFactor, position := pos, rotation := rot,
            scale := scaleBase * pulseScale }, light2, material2)

/-- One snow particle of the FloatingSnow pool (part_001 lines 63-74). -/
structure SnowParticle where
  x : ℝ
  y : ℝ
  z : ℝ
  speed : ℝ
  wobbleSpeed : ℝ
  wobbleRadius : ℝ
  randomOffset : ℝ
  scale : ℝ

/-- Unwrapped vertical position of a snow particle (part_001 line 82):
`y = particle.y - t * particle.speed * 5`. -/
def snowY (p : SnowParticle) (t : ℝ) : ℝ := p.y - t * p.speed * 5

/-- Wrapped vertical position of a snow particle (part_001 lines 85-86):
`loopY = ((y + range / 2) % range) - range / 2` with `range = 100`, where `%`
is the JavaScript remainder. -/
def snowLoopY (p : SnowParticle) (t : ℝ) : ℝ :=
  jsRem (snowY p t + 100 / 2) 100 - 100 / 2

/-- Transform of one snow particle on one frame (part_001 lines 80-103). -/
def snowTransform (p : SnowParticle) (t : ℝ) : Transform3 :=
  let x := p.x + Real.sin (t * p.wobbleSpeed + p.randomOffset) * p.wobbleRadius
  let z := p.z + Real.cos (t * p.wobbleSpeed * 0.8 + p.randomOffset) * p.wobbleRadius
  { position := ⟨x, snowLoopY p t, z⟩
    rotation := ⟨Real.sin (t * 0.5 + p.randomOffset) * 0.5,
                 Real.cos (t * 0.3 + p.randomOffset) * 0.5,
                 t * 0.1 + p.randomOffset⟩
    scale := p.scale }

/-- Render state of the snow instanced mesh. -/
structure SnowMesh where
  transforms : List Transform3

/-- One `useFrame` callback of FloatingSnow (part_001 lines 76-107): no-op
when the mesh ref is not initialized. -/
def snowFrame (particles : List SnowParticle) (t : ℝ) :
    Option SnowMesh → Option SnowMesh
  | none => none
  | some _ => some ⟨particles.map (fun p => snowTransform p t)⟩

end

/-- Flip of the arrangement, as performed by both the auto-play timers and the
`toggleState` handler of part_000 (lines 19-20, 27-28, 37-39). -/
def flipTree : TreeState → TreeState
  | TreeState.SCATTERED => TreeState.TREE_SHAPE
  | TreeState.TREE_SHAPE => TreeState.SCATTERED

/-- Dwell time (in ms) that the auto-play effect waits in each arrangement
before flipping it (part_000 lines 17-30): 8000 in `TREE_SHAPE`, 4000 in
`SCATTERED`. -/
def dwellMs : TreeState → ℕ
  | TreeState.TREE_SHAPE => 8000
  | TreeState.SCATTERED => 4000

/-- What a pending `setTimeout` callback of part_000 will do when it fires:
either set the arrangement (the auto-play transition timers, lines 19-29) or
resume auto mode (the idle timer, lines 50-52). -/
inductive TimerAction where
  | setTree (v : TreeState)
  | resumeAuto
deriving DecidableEq

/-- A pending `setTimeout`: its id, absolute deadline (ms) and callback. -/
structure PendingTimer where
  id : ℕ
  deadline : ℕ
  act : TimerAction
deriving DecidableEq

/-- The state of the App component of part_000 together with the JS runtime's
pool of pending timeouts: `tree` and `auto` are the two `useState` values,
`timers` the pending timeouts, `effectTid` the timeout id held by the current
auto-play effect closure (for its cleanup), `idleTid` the `idleTimerRef`
value, and `nextId` the next fresh timeout id. -/
structure AppState where
  tree : TreeState
  auto : Bool
  timers : List PendingTimer
  effectTid : Option ℕ
  idleTid : Option ℕ
  nextId : ℕ
deriving DecidableEq

/-- Embeds `clearTimeout`: removes the pending timeout with the given id, if
any; clearing `null` or an already-fired id does nothing. -/
def removeTimer (timers : List PendingTimer) : Option ℕ → List PendingTimer
  | none => timers
  | some i => timers.filter (fun tm => tm.id ≠ i)

/-- The body of the auto-play effect (part_000 lines 11-33): if auto mode is
off it returns without scheduling; otherwise it schedules a transition timer
that flips the current arrangement after its dwell time. -/
def runEffect (now : ℕ) (s : AppState) : AppState :=
  if s.auto then
    { s with
        timers := s.timers ++
          [⟨s.nextId, now + dwellMs s.tree, TimerAction.setTree (flipTree s.tree)⟩]
        effectTid := some s.nextId
        nextId := s.nextId + 1 }
  else s

/-- The cleanup of the auto-play effect (part_000 line 32): clears the timeout
the previous effect run scheduled, if any. -/
def cleanupEffect (s : AppState) : AppState :=
  { s with timers := removeTimer s.timers s.effectTid, effectTid := none }

/-- A React commit after the effect dependencies `(isAutoMode, treeState)`
changed: previous effect cleanup, then the effect body. -/
def commitRender (now : ℕ) (s : AppState) : AppState := runEffect now (cleanupEffect s)

/-- The App state right after mount (part_000 lines 6-7): arrangement
`TREE_SHAPE`, auto mode on, and the auto-play effect has run once. -/
def appInit : AppState :=
  commitRender 0
    { tree := TreeState.TREE_SHAPE, auto := true, timers := [],
      effectTid := none, idleTid := none, nextId := 0 }

/-- The `toggleState` handler (part_000 lines 35-53) invoked at time `now`:
flips the arrangement, turns auto mode off, clears any previous idle timer,
schedules a fresh 10000 ms idle timer, and then the commit re-runs the
auto-play effect (whose body now does nothing since auto mode is off). -/
def doToggle (now : ℕ) (s : AppState) : AppState :=
  commitRender now
    { s with
        tree := flipTree s.tree
        auto := false
        timers := removeTimer s.timers s.idleTid ++
          [⟨s.nextId, now + 10000, TimerAction.resumeAuto⟩]
        idleTid := some s.nextId
        nextId := s.nextId + 1 }

/-- Effect of a timer callback on the two `useState` values. -/
def applyAction (a : TimerAction) (s : AppState) : AppState :=
  match a with
  | TimerAction.setTree v => { s with tree := v }
  | TimerAction.resumeAuto => { s with auto := true }

/-- A pending timeout fires: the runtime removes it from the pool and runs its
callback, and the resulting state change commits (re-running the auto-play
effect). -/
def fireTimer (tm : PendingTimer) (s : AppState) : AppState :=
  commitRender tm.deadline
    (applyAction tm.act { s with timers := s.timers.filter (fun x => x.id ≠ tm.id) })

/-- Predicate selecting arrangement-transition timers. -/
def isTransTimer (tm : PendingTimer) : Bool :=
  match tm.act with
  | TimerAction.setTree _ => true
  | TimerAction.resumeAuto => false

/-- Predicate selecting resume-auto-mode (idle) timers. -/
def isIdleTimer (tm : PendingTimer) : Bool :=
  match tm.act with
  | TimerAction.setTree _ => false
  | TimerAction.resumeAuto => true

/-- One observable event of the App: either the user clicks (at a time no
later than any pending deadline — later instants would see the timer fire
first), or the earliest pending timeout fires. -/
inductive Step : AppState → AppState → Prop where
  | toggle (now : ℕ) (s : AppState) (hnow : ∀ tm ∈ s.timers, now ≤ tm.deadline) :
      Step s (doToggle now s)
  | fire (tm : PendingTimer) (s : AppState) (hmem : tm ∈ s.timers)
      (hmin : ∀ tm2 ∈ s.timers, tm.deadline ≤ tm2.deadline) :
      Step s (fireTimer tm s)

/-- States reachable from the mounted App. -/
inductive Reach : AppState → Prop where
  | init : Reach appInit
  | step {s s' : AppState} : Reach s → Step s s' → Reach s'

/-- The timer invariant of the App: exactly one timeout is pending — the
arrangement-transition timer of the current effect while auto mode is on, the
idle (resume-auto) timer while manual override is active — with bookkeeping
facts about timeout ids used to prove preservation. -/
def AppInvariant (s : AppState) : Prop :=
  ∃ tm : PendingTimer,
    s.timers = [tm] ∧ tm.id < s.nextId ∧
    (∀ j, s.idleTid = some j → j < s.nextId) ∧
    (∀ j, s.effectTid = some j → j < s.nextId) ∧
    (s.auto = true → tm.act = TimerAction.setTree (flipTree s.tree) ∧
      s.effectTid = some tm.id ∧ s.idleTid ≠ some tm.id) ∧
    (s.auto = false → tm.act = TimerAction.resumeAuto ∧
      s.idleTid = some tm.id ∧ s.effectTid = none)

section

/-- Claim C1, counterexample: the code's factor update is not the clamped
update the claim states. At `factor = 0`, arrangement `TREE_SHAPE` and frame
delta `1`, MorphingGroup computes `lerp 0 1 2.5 = 2.5`, while the claimed
clamped update yields `1`. -/
theorem c1_counterexample :
    morphNewFactor 0 TreeState.TREE_SHAPE 1 = 5 / 2 ∧
    specClampedFactorUpdate 0 TreeState.TREE_SHAPE 1 2.5 = 1 ∧
    morphNewFactor 0 TreeState.TREE_SHAPE 1 ≠ specClampedFactorUpdate 0 TreeState.TREE_SHAPE 1 2.5 := by
  refine ⟨?_, ?_, ?_⟩ <;>
    norm_num [morphNewFactor, specClampedFactorUpdate, lerp, targetFactor]

/-- Claim C1 (amended): every per-instance blend factor is updated as
`factor <- lerp(factor, target, delta * speed)` with the weight UNCLAMPED —
target `1` for `TREE_SHAPE` and `0` for `SCATTERED`, speed `2.5` for the
instanced groups and `2.0` for the star and the logo elements; the update
coincides with the clamped update claimed by the spec exactly on frames
whose weight `delta * speed` already lies in `[0, 1]`. -/
theorem c1_theorem (current : ℝ) (st : TreeState) (delta : ℝ)
    (h0 : 0 ≤ delta) (h1 : delta * 2.5 ≤ 1) :
    targetFactor TreeState.TREE_SHAPE = 1 ∧
    targetFactor TreeState.SCATTERED = 0 ∧
    morphNewFactor current st delta = lerp current (targetFactor st) (delta * 2.5) ∧
    logoNewFactor current st delta = lerp current (targetFactor st) (delta * 2.0) ∧
    starNewFactor current st delta = lerp current (targetFactor st) (delta * 2.0) ∧
    morphNewFactor current st delta = specClampedFactorUpdate current st delta 2.5 ∧
    logoNewFactor current st delta = specClampedFactorUpdate current st delta 2.0 ∧
    starNewFactor current st delta = specClampedFactorUpdate current st delta 2.0 := by
  have h25 : (0 : ℝ) ≤ delta * 2.5 := by nlinarith
  have h20 : (0 : ℝ) ≤ delta * 2.0 := by nlinarith
  have h21 : delta * 2.0 ≤ 1 := by nlinarith
  have hc25 : min (max (delta * 2.5) 0) 1 = delta * 2.5 := by
    rw [max_eq_left h25, min_eq_left h1]
  have hc20 : min (max (delta * 2.0) 0) 1 = delta * 2.0 := by
    rw [max_eq_left h20, min_eq_left h21]
  refine ⟨by simp [targetFactor], by simp [targetFactor], rfl, rfl, rfl, ?_, ?_, ?_⟩ <;>
    simp [morphNewFactor, logoNewFactor, starNewFactor, specClampedFactorUpdate, hc25, hc20]

/-- Witness for C1: the amended statement instantiated at `factor = 0`,
arrangement `TREE_SHAPE`, frame delta `1/5`. -/
theorem c1_witness :
    targetFactor TreeState.TREE_SHAPE = 1 ∧
    targetFactor TreeState.SCATTERED = 0 ∧
    morphNewFactor 0 TreeState.TREE_SHAPE (1 / 5) =
      lerp 0 (targetFactor TreeState.TREE_SHAPE) (1 / 5 * 2.5) ∧
    logoNewFactor 0 TreeState.TREE_SHAPE (1 / 5) =
      lerp 0 (targetFactor TreeState.TREE_SHAPE) (1 / 5 * 2.0) ∧
    starNewFactor 0 TreeState.TREE_SHAPE (1 / 5) =
      lerp 0 (targetFactor TreeState.TREE_SHAPE) (1 / 5 * 2.0) ∧
    morphNewFactor 0 TreeState.TREE_SHAPE (1 / 5) =
      specClampedFactorUpdate 0 TreeState.TREE_SHAPE (1 / 5) 2.5 ∧
    logoNewFactor 0 TreeState.TREE_SHAPE (1 / 5) =
      specClampedFactorUpdate 0 TreeState.TREE_SHAPE (1 / 5) 2.0 ∧
    starNewFactor 0 TreeState.TREE_SHAPE (1 / 5) =
      specClampedFactorUpdate 0 TreeState.TREE_SHAPE (1 / 5) 2.0 :=
  c1_theorem 0 TreeState.TREE_SHAPE (1 / 5) (by norm_num) (by norm_num)

/-- Distance to the target contracts by the factor `1 - w` at each update. -/
lemma lerp_sub_target (f target w : ℝ) : lerp f target w - target = (1 - w) * (f - target) := by
  unfold lerp; ring

/-- The head of a `scanl` is its initial accumulator. -/
lemma head?_scanl (g : ℝ → ℝ → ℝ) (b : ℝ) (l : List ℝ) :
    (List.scanl g b l).head? = some b := by
  cases l <;> rfl

/-- With weights in `[0, 1]`, the factor sequence approaching a target from
below is monotonically non-decreasing. -/
lemma chain'_scanl_up (w : ℝ → ℝ) (target : ℝ) :
    ∀ (ds : List ℝ) (f0 : ℝ), (∀ d ∈ ds, 0 ≤ w d ∧ w d ≤ 1) → f0 ≤ target →
      List.Chain' (· ≤ ·) (List.scanl (fun f d => lerp f target (w d)) f0 ds)
  | [], f0, _, _ => List.chain'_singleton f0
  | d :: ds, f0, hw, hf0 => by
    have hwd := hw d (List.mem_cons_self d ds)
    have hstep : f0 ≤ lerp f0 target (w d) := by
      have : lerp f0 target (w d) - f0 = w d * (target - f0) := by unfold lerp; ring
      nlinarith [hwd.1, hwd.2]
    have hle : lerp f0 target (w d) ≤ target := by
      have := lerp_sub_target f0 target (w d)
      nlinarith [hwd.1, hwd.2]
    rw [List.scanl]
    rw [List.chain'_cons']
    refine ⟨?_, chain'_scanl_up w target ds _ (fun x hx => hw x (List.mem_cons_of_mem d hx)) hle⟩
    intro y hy
    rw [head?_scanl] at hy
    cases hy
    exact hstep

/-- With weights in `[0, 1]`, the factor sequence approaching a target from
above is monotonically non-increasing. -/
lemma chain'_scanl_down (w : ℝ → ℝ) (target : ℝ) :
    ∀ (ds : List ℝ) (f0 : ℝ), (∀ d ∈ ds, 0 ≤ w d ∧ w d ≤ 1) → target ≤ f0 →
      List.Chain' (· ≥ ·) (List.scanl (fun f d => lerp f target (w d)) f0 ds)
  | [], f0, _, _ => List.chain'_singleton f0
  | d :: ds, f0, hw, hf0 => by
    have hwd := hw d (List.mem_cons_self d ds)
    have hstep : lerp f0 target (w d) ≤ f0 := by
      have : lerp f0 target (w d) - f0 = w d * (target - f0) := by unfold lerp; ring
      nlinarith [hwd.1, hwd.2]
    have hge : target ≤ lerp f0 target (w d) := by
      have := lerp_sub_target f0 target (w d)
      nlinarith [hwd.1, hwd.2]
    rw [List.scanl]
    rw [List.chain'_cons']
    refine ⟨?_, chain'_scanl_down w target ds _ (fun x hx => hw x (List.mem_cons_of_mem d hx)) hge⟩
    intro y hy
    rw [head?_scanl] at hy
    cases hy
    exact hstep

/-- Exponential-approach law for the iterated unclamped lerp with per-step
weights `d * speed` in `[0, 1]`: the distance to the target after a list of
frame deltas is bounded by the initial distance times `exp (-speed * total)`. -/
lemma foldl_dist_exp (target speed : ℝ) :
    ∀ (ds : List ℝ) (f0 : ℝ), (∀ d ∈ ds, 0 ≤ d * speed ∧ d * speed ≤ 1) →
      |List.foldl (fun f d => lerp f target (d * speed)) f0 ds - target| ≤
        |f0 - target| * Real.exp (-(speed * ds.sum))
  | [], f0, _ => by
    simp [Real.exp_zero]
  | d :: ds, f0, hw => by
    have hwd := hw d (List.mem_cons_self d ds)
    have ih := foldl_dist_exp target speed ds (lerp f0 target (d * speed))
      (fun x hx => hw x (List.mem_cons_of_mem d hx))
    have hstep : |lerp f0 target (d * speed) - target| ≤ Real.exp (-(d * speed)) * |f0 - target| := by
      rw [lerp_sub_target, abs_mul, abs_of_nonneg (by linarith [hwd.2] : (0:ℝ) ≤ 1 - d * speed)]
      have hexp : 1 - d * speed ≤ Real.exp (-(d * speed)) := by
        have := Real.add_one_le_exp (-(d * speed))
        linarith
      exact mul_le_mul_of_nonneg_right hexp (abs_nonneg _)
    calc |List.foldl (fun f d => lerp f target (d * speed)) f0 (d :: ds) - target|
        ≤ |lerp f0 target (d * speed) - target| * Real.exp (-(speed * ds.sum)) := by
          simpa using ih
      _ ≤ Real.exp (-(d * speed)) * |f0 - target| * Real.exp (-(speed * ds.sum)) :=
          mul_le_mul_of_nonneg_right hstep (le_of_lt (Real.exp_pos _))
      _ = |f0 - target| * Real.exp (-(speed * (d :: ds).sum)) := by
          rw [List.sum_cons, mul_comm (Real.exp (-(d * speed))) (|f0 - target|), mul_assoc,
            ← Real.exp_add]
          congr 2
          ring

/-- Claim C2, counterexample: with positive frame deltas `1, 1` the
MorphingGroup factor sequence toward target `1` is not monotonically
non-decreasing — it overshoots to `2.5` and then falls back to `-1.25`,
because the interpolation weight is unclamped. -/
theorem c2_counterexample :
    morphNewFactor 0 TreeState.TREE_SHAPE 1 = 5 / 2 ∧
    morphNewFactor (morphNewFactor 0 TreeState.TREE_SHAPE 1) TreeState.TREE_SHAPE 1 <
      morphNewFactor 0 TreeState.TREE_SHAPE 1 := by
  constructor <;> norm_num [morphNewFactor, lerp, targetFactor]

/-- Claim C2 (amended): restricted to frame-delta sequences whose per-step
interpolation weight `delta * speed` lies in `[0, 1]` (the regime in which the
code's unclamped lerp behaves as claimed) and to an initial factor in `[0, 1]`,
the blend-factor sequence is monotonically non-decreasing while the target is
`1` and non-increasing while the target is `0`, and the final distance to the
target obeys the exponential-approach bound
`|factor - target| <= |factor0 - target| * exp (-speed * total elapsed)`,
for the instanced groups (speed 2.5), the logo elements and the star
(speed 2.0). For unrestricted positive deltas the sequence is not monotone
(see the counterexample). -/
theorem c2_theorem (ds : List ℝ) (hds : ∀ d ∈ ds, 0 ≤ d ∧ d * 2.5 ≤ 1)
    (f0 : ℝ) (h0 : 0 ≤ f0) (h1 : f0 ≤ 1) :
    List.Chain' (· ≤ ·) (List.scanl (fun f d => morphNewFactor f TreeState.TREE_SHAPE d) f0 ds) ∧
    List.Chain' (· ≥ ·) (List.scanl (fun f d => morphNewFactor f TreeState.SCATTERED d) f0 ds) ∧
    |List.foldl (fun f d => morphNewFactor f TreeState.TREE_SHAPE d) f0 ds - 1| ≤
      |f0 - 1| * Real.exp (-(2.5 * ds.sum)) ∧
    |List.foldl (fun f d => morphNewFactor f TreeState.SCATTERED d) f0 ds - 0| ≤
      |f0 - 0| * Real.exp (-(2.5 * ds.sum)) ∧
    List.Chain' (· ≤ ·) (List.scanl (fun f d => logoNewFactor f TreeState.TREE_SHAPE d) f0 ds) ∧
    List.Chain' (· ≥ ·) (List.scanl (fun f d => logoNewFactor f TreeState.SCATTERED d) f0 ds) ∧
    |List.foldl (fun f d => logoNewFactor f TreeState.TREE_SHAPE d) f0 ds - 1| ≤
      |f0 - 1| * Real.exp (-(2.0 * ds.sum)) ∧
    |List.foldl (fun f d => logoNewFactor f TreeState.SCATTERED d) f0 ds - 0| ≤
      |f0 - 0| * Real.exp (-(2.0 * ds.sum)) ∧
    List.Chain' (· ≤ ·) (List.scanl (fun f d => starNewFactor f TreeState.TREE_SHAPE d) f0 ds) ∧
    |List.foldl (fun f d => starNewFactor f TreeState.TREE_SHAPE d) f0 ds - 1| ≤
      |f0 - 1| * Real.exp (-(2.0 * ds.sum)) := by
  have hmorphT : (fun f d => morphNewFactor f TreeState.TREE_SHAPE d) =
      fun f d => lerp f 1 (d * 2.5) := by
    funext f d; simp [morphNewFactor, targetFactor]
  have hmorphS : (fun f d => morphNewFactor f TreeState.SCATTERED d) =
      fun f d => lerp f 0 (d * 2.5) := by
    funext f d; simp [morphNewFactor, targetFactor]
  have hlogoT : (fun f d => logoNewFactor f TreeState.TREE_SHAPE d) =
      fun f d => lerp f 1 (d * 2.0) := by
    funext f d; simp [logoNewFactor, targetFactor]
  have hlogoS : (fun f d => logoNewFactor f TreeState.SCATTERED d) =
      fun f d => lerp f 0 (d * 2.0) := by
    funext f d; simp [logoNewFactor, targetFactor]
  have hstarT : (fun f d => starNewFactor f TreeState.TREE_SHAPE d) =
      fun f d => lerp f 1 (d * 2.0) := by
    funext f d; simp [starNewFactor, targetFactor]
  have hw25 : ∀ d ∈ ds, 0 ≤ d * 2.5 ∧ d * 2.5 ≤ 1 := by
    intro d hd
    obtain ⟨ha, hb⟩ := hds d hd
    exact ⟨by nlinarith, hb⟩
  have hw20 : ∀ d ∈ ds, 0 ≤ d * 2.0 ∧ d * 2.0 ≤ 1 := by
    intro d hd
    obtain ⟨ha, hb⟩ := hds d hd
    exact ⟨by nlinarith, by nlinarith⟩
  rw [hmorphT, hmorphS, hlogoT, hlogoS, hstarT]
  refine ⟨chain'_scanl_up (fun d => d * 2.5) 1 ds f0 hw25 h1,
    chain'_scanl_down (fun d => d * 2.5) 0 ds f0 hw25 h0,
    foldl_dist_exp 1 2.5 ds f0 hw25,
    foldl_dist_exp 0 2.5 ds f0 hw25,
    chain'_scanl_up (fun d => d * 2.0) 1 ds f0 hw20 h1,
    chain'_scanl_down (fun d => d * 2.0) 0 ds f0 hw20 h0,
    foldl_dist_exp 1 2.0 ds f0 hw20,
    foldl_dist_exp 0 2.0 ds f0 hw20,
    chain'_scanl_up (fun d => d * 2.0) 1 ds f0 hw20 h1,
    foldl_dist_exp 1 2.0 ds f0 hw20⟩

/-- Witness for C2: the amended statement instantiated at the delta sequence
`[1/5]` and initial factor `0`. -/
theorem c2_witness :
    List.Chain' (· ≤ ·)
      (List.scanl (fun f d => morphNewFactor f TreeState.TREE_SHAPE d) 0 [1 / 5]) ∧
    List.Chain' (· ≥ ·)
      (List.scanl (fun f d => morphNewFactor f TreeState.SCATTERED d) 0 [1 / 5]) ∧
    |List.foldl (fun f d => morphNewFactor f TreeState.TREE_SHAPE d) 0 [1 / 5] - 1| ≤
      |(0 : ℝ) - 1| * Real.exp (-(2.5 * ([1 / 5] : List ℝ).sum)) ∧
    |List.foldl (fun f d => morphNewFactor f TreeState.SCATTERED d) 0 [1 / 5] - 0| ≤
      |(0 : ℝ) - 0| * Real.exp (-(2.5 * ([1 / 5] : List ℝ).sum)) ∧
    List.Chain' (· ≤ ·)
      (List.scanl (fun f d => logoNewFactor f TreeState.TREE_SHAPE d) 0 [1 / 5]) ∧
    List.Chain' (· ≥ ·)
      (List.scanl (fun f d => logoNewFactor f TreeState.SCATTERED d) 0 [1 / 5]) ∧
    |List.foldl (fun f d => logoNewFactor f TreeState.TREE_SHAPE d) 0 [1 / 5] - 1| ≤
      |(0 : ℝ) - 1| * Real.exp (-(2.0 * ([1 / 5] : List ℝ).sum)) ∧
    |List.foldl (fun f d => logoNewFactor f TreeState.SCATTERED d) 0 [1 / 5] - 0| ≤
      |(0 : ℝ) - 0| * Real.exp (-(2.0 * ([1 / 5] : List ℝ).sum)) ∧
    List.Chain' (· ≤ ·)
      (List.scanl (fun f d => starNewFactor f TreeState.TREE_SHAPE d) 0 [1 / 5]) ∧
    |List.foldl (fun f d => starNewFactor f TreeState.TREE_SHAPE d) 0 [1 / 5] - 1| ≤
      |(0 : ℝ) - 1| * Real.exp (-(2.0 * ([1 / 5] : List ℝ).sum)) :=
  c2_theorem [1 / 5] (by norm_num) 0 (by norm_num) (by norm_num)

/-- Clearing a timeout id that the single pending timer does not carry leaves
the pool unchanged. -/
lemma removeTimer_single_ne (tm : PendingTimer) (o : Option ℕ) (h : o ≠ some tm.id) :
    removeTimer [tm] o = [tm] := by
  cases o with
  | none => rfl
  | some j =>
    have hj : tm.id ≠ j := by
      intro hh
      exact h (by rw [hh])
    simp [removeTimer, hj]

/-- Clearing the single pending timer's own id empties the pool. -/
lemma removeTimer_single_eq (tm : PendingTimer) : removeTimer [tm] (some tm.id) = [] := by
  simp [removeTimer]

/-- Clearing the first of two pending timers keeps the second. -/
lemma removeTimer_pair (tm tm2 : PendingTimer) (h : tm2.id ≠ tm.id) :
    removeTimer [tm, tm2] (some tm.id) = [tm2] := by
  simp [removeTimer, h]

/-- Neither the effect cleanup nor the effect body changes the arrangement. -/
lemma commitRender_tree (n : ℕ) (x : AppState) : (commitRender n x).tree = x.tree := by
  unfold commitRender runEffect cleanupEffect
  split <;> rfl

/-- Neither the effect cleanup nor the effect body changes the auto flag. -/
lemma commitRender_auto (n : ℕ) (x : AppState) : (commitRender n x).auto = x.auto := by
  unfold commitRender runEffect cleanupEffect
  split <;> rfl

/-- The mounted App state, computed. -/
lemma appInit_eq :
    appInit = { tree := TreeState.TREE_SHAPE, auto := true,
                timers := [⟨0, 8000, TimerAction.setTree TreeState.SCATTERED⟩],
                effectTid := some 0, idleTid := none, nextId := 1 } := by
  decide

/-- Full effect of a toggle on an invariant state: the arrangement flips, auto
mode goes off, and the single pending timer becomes a fresh idle timer due
10000 ms after the click. -/
lemma doToggle_eq (s : AppState) (h : AppInvariant s) (now : ℕ) :
    doToggle now s = { tree := flipTree s.tree, auto := false,
                       timers := [⟨s.nextId, now + 10000, TimerAction.resumeAuto⟩],
                       effectTid := none, idleTid := some s.nextId,
                       nextId := s.nextId + 1 } := by
  obtain ⟨tm, ht, hid, hidle, heff, hA, hM⟩ := h
  have hidne : s.nextId ≠ tm.id := Nat.ne_of_gt hid
  cases hb : s.auto with
  | true =>
    obtain ⟨hact, heffid, hne⟩ := hA hb
    have h1 : removeTimer s.timers s.idleTid = [tm] := by
      rw [ht]
      exact removeTimer_single_ne tm s.idleTid hne
    have h2 : removeTimer ([tm] ++ [(⟨s.nextId, now + 10000, TimerAction.resumeAuto⟩ : PendingTimer)])
        (some tm.id) = [⟨s.nextId, now + 10000, TimerAction.resumeAuto⟩] :=
      removeTimer_pair tm _ hidne
    unfold doToggle commitRender cleanupEffect runEffect
    simp only [h1, heffid, hb]
    simpa using h2
  | false =>
    obtain ⟨hact, hidleq, heffnone⟩ := hM hb
    have h1 : removeTimer s.timers s.idleTid = [] := by
      rw [ht, hidleq]
      exact removeTimer_single_eq tm
    unfold doToggle commitRender cleanupEffect runEffect
    simp only [h1, heffnone, hb]
    simp [removeTimer]

/-- Full effect of the transition timer firing while auto mode is on: the
arrangement flips and the effect schedules the next transition timer one
dwell period later. -/
lemma fireTimer_eq_auto (s : AppState) (h : AppInvariant s) (hb : s.auto = true)
    (tm : PendingTimer) (hmem : tm ∈ s.timers) :
    fireTimer tm s = { tree := flipTree s.tree, auto := true,
                       timers := [⟨s.nextId, tm.deadline + dwellMs (flipTree s.tree),
                         TimerAction.setTree (flipTree (flipTree s.tree))⟩],
                       effectTid := some s.nextId, idleTid := s.idleTid,
                       nextId := s.nextId + 1 } := by
  obtain ⟨tm0, ht, hid, hidle, heff, hA, hM⟩ := h
  obtain ⟨hact, heffid, hne⟩ := hA hb
  have htm : tm = tm0 := by
    rw [ht] at hmem
    simpa using hmem
  subst htm
  have h1 : s.timers.filter (fun x => x.id ≠ tm.id) = [] := by
    rw [ht]
    simp
  unfold fireTimer commitRender cleanupEffect runEffect applyAction
  rw [hact]
  simp only [h1, heffid, hb]
  simp [removeTimer, hb]

/-- Full effect of the idle timer firing while manual override is active:
auto mode resumes and the effect schedules a transition timer for the current
arrangement's dwell time. -/
lemma fireTimer_eq_idle (s : AppState) (h : AppInvariant s) (hb : s.auto = false)
    (tm : PendingTimer) (hmem : tm ∈ s.timers) :
    fireTimer tm s = { tree := s.tree, auto := true,
                       timers := [⟨s.nextId, tm.deadline + dwellMs s.tree,
                         TimerAction.setTree (flipTree s.tree)⟩],
                       effectTid := some s.nextId, idleTid := s.idleTid,
                       nextId := s.nextId + 1 } := by
  obtain ⟨tm0, ht, hid, hidle, heff, hA, hM⟩ := h
  obtain ⟨hact, hidleq, heffnone⟩ := hM hb
  have htm : tm = tm0 := by
    rw [ht] at hmem
    simpa using hmem
  subst htm
  have h1 : s.timers.filter (fun x => x.id ≠ tm.id) = [] := by
    rw [ht]
    simp
  unfold fireTimer commitRender cleanupEffect runEffect applyAction
  rw [hact]
  simp only [h1, heffnone]
  simp [removeTimer]

/-- The mounted App satisfies the timer invariant. -/
lemma appInvariant_init : AppInvariant appInit := by
  rw [appInit_eq]
  refine ⟨⟨0, 8000, TimerAction.setTree TreeState.SCATTERED⟩, rfl, Nat.zero_lt_one, ?_, ?_, ?_, ?_⟩
  · intro j hj
    cases hj
  · intro j hj
    cases hj
    exact Nat.zero_lt_one
  · intro _
    exact ⟨rfl, rfl, by simp⟩
  · intro hfalse
    cases hfalse

/-- A toggle preserves the timer invariant. -/
lemma appInvariant_doToggle (s : AppState) (h : AppInvariant s) (now : ℕ) :
    AppInvariant (doToggle now s) := by
  rw [doToggle_eq s h now]
  refine ⟨⟨s.nextId, now + 10000, TimerAction.resumeAuto⟩, rfl, Nat.lt_succ_self _, ?_, ?_, ?_, ?_⟩
  · intro j hj
    cases hj
    exact Nat.lt_succ_self _
  · intro j hj
    cases hj
  · intro hcontra
    cases hcontra
  · intro _
    exact ⟨rfl, rfl, rfl⟩

/-- A timer firing preserves the timer invariant. -/
lemma appInvariant_fire (s : AppState) (h : AppInvariant s) (tm : PendingTimer)
    (hmem : tm ∈ s.timers) : AppInvariant (fireTimer tm s) := by
  cases hb : s.auto with
  | true =>
    obtain ⟨tm0, ht, hid, hidle, heff, hA, hM⟩ := h
    rw [fireTimer_eq_auto s ⟨tm0, ht, hid, hidle, heff, hA, hM⟩ hb tm hmem]
    refine ⟨⟨s.nextId, tm.deadline + dwellMs (flipTree s.tree),
      TimerAction.setTree (flipTree (flipTree s.tree))⟩, rfl, Nat.lt_succ_self _, ?_, ?_, ?_, ?_⟩
    · intro j hj
      exact Nat.lt_succ_of_lt (hidle j hj)
    · intro j hj
      cases hj
      exact Nat.lt_succ_self _
    · intro _
      refine ⟨rfl, rfl, ?_⟩
      intro hcontra
      obtain ⟨hact0, heffid0, hne0⟩ := hA hb
      have := hidle s.nextId hcontra
      omega
    · intro hfalse
      cases hfalse
  | false =>
    obtain ⟨tm0, ht, hid, hidle, heff, hA, hM⟩ := h
    rw [fireTimer_eq_idle s ⟨tm0, ht, hid, hidle, heff, hA, hM⟩ hb tm hmem]
    refine ⟨⟨s.nextId, tm.deadline + dwellMs s.tree,
      TimerAction.setTree (flipTree s.tree)⟩, rfl, Nat.lt_succ_self _, ?_, ?_, ?_, ?_⟩
    · intro j hj
      exact Nat.lt_succ_of_lt (hidle j hj)
    · intro j hj
      cases hj
      exact Nat.lt_succ_self _
    · intro _
      refine ⟨rfl, rfl, ?_⟩
      intro hcontra
      have := hidle s.nextId hcontra
      omega
    · intro hfalse
      cases hfalse

/-- Every reachable App state satisfies the timer invariant. -/
lemma reach_appInvariant {s : AppState} (h : Reach s) : AppInvariant s := by
  induction h with
  | init => exact appInvariant_init
  | step _ hs ih =>
    cases hs with
    | toggle now s2 hnow => exact appInvariant_doToggle _ ih now
    | fire tm s2 hmem hmin => exact appInvariant_fire _ ih tm hmem

/-- Claim C4 (confirmed): in automatic mode the arrangement dwells 8000 ms in
`TREE_SHAPE` and 4000 ms in `SCATTERED` before the scheduled transition flips
it; a user toggle immediately flips the arrangement and suspends automatic
mode; the toggle leaves exactly one pending idle timer due 10000 ms after the
click, a successive toggle replaces it with one due 10000 ms after the LAST
click, and the only step that resumes automatic mode is that idle timer
firing. -/
theorem c4_theorem (s : AppState) (now now2 : ℕ) (tm tm2 : PendingTimer) (v : TreeState)
    (s' : AppState) (hs : Reach s) :
    (dwellMs TreeState.TREE_SHAPE = 8000 ∧ dwellMs TreeState.SCATTERED = 4000) ∧
    (s.auto = true →
      (runEffect now s).timers =
        s.timers ++ [⟨s.nextId, now + dwellMs s.tree, TimerAction.setTree (flipTree s.tree)⟩]) ∧
    (tm ∈ s.timers → tm.act = TimerAction.setTree v → (fireTimer tm s).tree = v) ∧
    ((doToggle now s).tree = flipTree s.tree ∧ (doToggle now s).auto = false) ∧
    ((doToggle now s).timers = [⟨s.nextId, now + 10000, TimerAction.resumeAuto⟩]) ∧
    ((doToggle now2 (doToggle now s)).timers =
      [⟨s.nextId + 1, now2 + 10000, TimerAction.resumeAuto⟩]) ∧
    (tm2.act = TimerAction.resumeAuto → (fireTimer tm2 s).auto = true) ∧
    (Step s s' → s.auto = false → s'.auto = true →
      ∃ tmr, tmr ∈ s.timers ∧ tmr.act = TimerAction.resumeAuto ∧ s' = fireTimer tmr s) := by
  have hinv := reach_appInvariant hs
  refine ⟨⟨rfl, rfl⟩, ?_, ?_, ?_, ?_, ?_, ?_, ?_⟩
  · intro hb
    simp [runEffect, hb]
  · intro hmem hact
    unfold fireTimer
    rw [commitRender_tree, hact]
    rfl
  · constructor
    · unfold doToggle
      rw [commitRender_tree]
    · unfold doToggle
      rw [commitRender_auto]
  · rw [doToggle_eq s hinv now]
  · have hinv2 := appInvariant_doToggle s hinv now
    rw [doToggle_eq _ hinv2 now2, doToggle_eq s hinv now]
  · intro hact
    unfold fireTimer
    rw [commitRender_auto, hact]
    rfl
  · intro hstep hfa hta
    cases hstep with
    | toggle n3 s3 hn3 =>
      exfalso
      have hfalse : (doToggle n3 s).auto = false := by
        unfold doToggle
        rw [commitRender_auto]
      rw [hfalse] at hta
      exact Bool.false_ne_true hta
    | fire tmr s3 hmem hmin =>
      cases hact : tmr.act with
      | setTree v2 =>
        exfalso
        have hsame : (fireTimer tmr s).auto = s.auto := by
          unfold fireTimer
          rw [commitRender_auto, hact]
          rfl
        rw [hsame, hfa] at hta
        exact Bool.false_ne_true hta
      | resumeAuto =>
        exact ⟨tmr, hmem, hact, rfl⟩

/-- Witness for C4: the theorem instantiated at the mounted App state with a
toggle at 1000 ms and a second toggle at 2000 ms. -/
theorem c4_witness :
    (dwellMs TreeState.TREE_SHAPE = 8000 ∧ dwellMs TreeState.SCATTERED = 4000) ∧
    (appInit.auto = true →
      (runEffect 1000 appInit).timers =
        appInit.timers ++
          [⟨appInit.nextId, 1000 + dwellMs appInit.tree,
            TimerAction.setTree (flipTree appInit.tree)⟩]) ∧
    ((⟨0, 8000, TimerAction.setTree TreeState.SCATTERED⟩ : PendingTimer) ∈ appInit.timers →
      (⟨0, 8000, TimerAction.setTree TreeState.SCATTERED⟩ : PendingTimer).act =
        TimerAction.setTree TreeState.SCATTERED →
      (fireTimer ⟨0, 8000, TimerAction.setTree TreeState.SCATTERED⟩ appInit).tree =
        TreeState.SCATTERED) ∧
    ((doToggle 1000 appInit).tree = flipTree appInit.tree ∧
      (doToggle 1000 appInit).auto = false) ∧
    ((doToggle 1000 appInit).timers =
      [⟨appInit.nextId, 1000 + 10000, TimerAction.resumeAuto⟩]) ∧
    ((doToggle 2000 (doToggle 1000 appInit)).timers =
      [⟨appInit.nextId + 1, 2000 + 10000, TimerAction.resumeAuto⟩]) ∧
    ((⟨7, 500, TimerAction.resumeAuto⟩ : PendingTimer).act = TimerAction.resumeAuto →
      (fireTimer ⟨7, 500, TimerAction.resumeAuto⟩ appInit).auto = true) ∧
    (Step appInit appInit → appInit.auto = false → appInit.auto = true →
      ∃ tmr, tmr ∈ appInit.timers ∧ tmr.act = TimerAction.resumeAuto ∧
        appInit = fireTimer tmr appInit) :=
  c4_theorem appInit 1000 2000 ⟨0, 8000, TimerAction.setTree TreeState.SCATTERED⟩
    ⟨7, 500, TimerAction.resumeAuto⟩ TreeState.SCATTERED appInit Reach.init

/-- Claim C5, counterexample: the claim requires exactly one pending
arrangement-transition timer AT EVERY instant, but immediately after a user
toggle (a reachable instant: here a click at 1000 ms on the freshly mounted
App) no transition timer is pending at all — the effect cleanup cancelled it
and the effect body reschedules nothing while auto mode is off. -/
theorem c5_counterexample :
    Reach (doToggle 1000 appInit) ∧
    ((doToggle 1000 appInit).timers.filter isTransTimer).length = 0 := by
  constructor
  · exact Reach.step Reach.init (Step.toggle 1000 appInit (by decide))
  · decide

/-- Claim C5 (amended): at every reachable instant exactly one timeout is
pending in total; it is an arrangement-transition timer exactly while
automatic mode is active (none is pending during manual override), and it is
a resume-auto-mode timer exactly while manual override is active — so at most
one of each kind ever exists and repeated rapid toggling never leaves
duplicate or stale timers. -/
theorem c5_theorem (s : AppState) (hs : Reach s) :
    s.timers.length = 1 ∧
    (s.timers.filter isTransTimer).length = (if s.auto then 1 else 0) ∧
    (s.timers.filter isIdleTimer).length = (if s.auto then 0 else 1) := by
  obtain ⟨tm, ht, hid, hidle, heff, hA, hM⟩ := reach_appInvariant hs
  cases hb : s.auto with
  | true =>
    obtain ⟨hact, heffid, hne⟩ := hA hb
    simp [ht, hb, isTransTimer, isIdleTimer, hact]
  | false =>
    obtain ⟨hact, hidleq, heffnone⟩ := hM hb
    simp [ht, hb, isTransTimer, isIdleTimer, hact]

/-- Witness for C5: the amended statement at the mounted App state. -/
theorem c5_witness :
    appInit.timers.length = 1 ∧
    (appInit.timers.filter isTransTimer).length = (if appInit.auto then 1 else 0) ∧
    (appInit.timers.filter isIdleTimer).length = (if appInit.auto then 0 else 1) :=
  c5_theorem appInit Reach.init

/-- Interpolating with weight zero returns the first endpoint. -/
lemma lerpVec_zero (a b : Vec3) : lerpVec a b 0 = a := by
  ext <;> simp [lerpVec]

/-- Claim C3, counterexample: the claim quantifies over EVERY animated object,
but a MorphingGroup instance held at blend factor `0.96 > 0.95` is never
snapped — its rotation still advances with elapsed time (here from `(0,0,0)`
at `time = 0` to `(0.2, 0.2, 0)` at `time = 1`), independent of the factor. -/
theorem c3_counterexample :
    (0.95 : ℝ) < 0.96 ∧
    (morphInstanceTransform false 0 0.96 0 ⟨⟨0, 0, 0⟩, ⟨0, 0, 0⟩, ⟨0, 0, 0⟩, 1⟩).rotation ≠
      (morphInstanceTransform false 1 0.96 0 ⟨⟨0, 0, 0⟩, ⟨0, 0, 0⟩, ⟨0, 0, 0⟩, 1⟩).rotation := by
  refine ⟨by norm_num, fun h => ?_⟩
  have hx := congrArg Vec3.x h
  simp only [morphInstanceTransform, morphRotation] at hx
  norm_num at hx

/-- Claim C3 (amended): only the logo elements snap — a LogoElement whose
factor exceeds `0.95` gets the canonical orientation `(0,0,0)` and below that
threshold the time-driven tumble scaled by `1 - factor`, with no snap at the
scattered end; the star never snaps (its rotation follows the same continuous
formula at every factor, the x/z tumble scaling by `1 - factor`); and the
instanced groups' rotations ignore the blend factor entirely, tumbling at all
factors. -/
theorem c3_theorem (time f : ℝ) (cfg : LogoScatterConfig) (cc : Bool)
    (item : PositionData) (i : ℕ) :
    (0.95 < f → logoRotation time cfg f = ⟨0, 0, 0⟩) ∧
    (¬ 0.95 < f →
      logoRotation time cfg f =
        ⟨(time + cfg.randomPhase) * cfg.rotSpeed.x * (1 - f),
         (time + cfg.randomPhase) * cfg.rotSpeed.y * (1 - f),
         (time + cfg.randomPhase) * cfg.rotSpeed.z * 0.5 * (1 - f)⟩) ∧
    (morphInstanceTransform cc time f i item).rotation = morphRotation cc item time ∧
    starRotation time f =
      ⟨Real.sin time * ((1 - f) * 2), time * 0.5, Real.cos (time * 0.8) * ((1 - f) * 2)⟩ ∧
    (starRotation 0 0.96).y ≠ (starRotation 1 0.96).y ∧
    logoRotation 1 ⟨⟨0, 0, 0⟩, ⟨1, 1, 1⟩, 0⟩ 0 ≠ logoRotation 2 ⟨⟨0, 0, 0⟩, ⟨1, 1, 1⟩, 0⟩ 0 := by
  refine ⟨?_, ?_, rfl, rfl, ?_, ?_⟩
  · intro h
    simp [logoRotation, if_pos h]
  · intro h
    simp [logoRotation, if_neg h]
  · intro h
    simp only [starRotation] at h
    norm_num at h
  · intro h
    have hx := congrArg Vec3.x h
    norm_num [logoRotation] at hx

/-- Witness for C3: the amended statement at `time = 3`, factor `0.96`, a
concrete logo scatter config and a concrete instance. -/
theorem c3_witness :
    ((0.95 : ℝ) < 0.96 →
      logoRotation 3 ⟨⟨0, 0, 0⟩, ⟨1, 1, 1⟩, 0⟩ 0.96 = ⟨0, 0, 0⟩) ∧
    (¬ (0.95 : ℝ) < 0.96 →
      logoRotation 3 ⟨⟨0, 0, 0⟩, ⟨1, 1, 1⟩, 0⟩ 0.96 =
        ⟨((3 : ℝ) + (⟨⟨0, 0, 0⟩, ⟨1, 1, 1⟩, 0⟩ : LogoScatterConfig).randomPhase) *
            (⟨⟨0, 0, 0⟩, ⟨1, 1, 1⟩, 0⟩ : LogoScatterConfig).rotSpeed.x * (1 - 0.96),
         ((3 : ℝ) + (⟨⟨0, 0, 0⟩, ⟨1, 1, 1⟩, 0⟩ : LogoScatterConfig).randomPhase) *
            (⟨⟨0, 0, 0⟩, ⟨1, 1, 1⟩, 0⟩ : LogoScatterConfig).rotSpeed.y * (1 - 0.96),
         ((3 : ℝ) + (⟨⟨0, 0, 0⟩, ⟨1, 1, 1⟩, 0⟩ : LogoScatterConfig).randomPhase) *
            (⟨⟨0, 0, 0⟩, ⟨1, 1, 1⟩, 0⟩ : LogoScatterConfig).rotSpeed.z * 0.5 * (1 - 0.96)⟩) ∧
    (morphInstanceTransform false 3 0.96 0 ⟨⟨0, 0, 0⟩, ⟨0, 0, 0⟩, ⟨0, 0, 0⟩, 1⟩).rotation =
      morphRotation false ⟨⟨0, 0, 0⟩, ⟨0, 0, 0⟩, ⟨0, 0, 0⟩, 1⟩ 3 ∧
    starRotation 3 0.96 =
      ⟨Real.sin 3 * ((1 - 0.96) * 2), 3 * 0.5, Real.cos (3 * 0.8) * ((1 - 0.96) * 2)⟩ ∧
    (starRotation 0 0.96).y ≠ (starRotation 1 0.96).y ∧
    logoRotation 1 ⟨⟨0, 0, 0⟩, ⟨1, 1, 1⟩, 0⟩ 0 ≠ logoRotation 2 ⟨⟨0, 0, 0⟩, ⟨1, 1, 1⟩, 0⟩ 0 :=
  c3_theorem 3 0.96 ⟨⟨0, 0, 0⟩, ⟨1, 1, 1⟩, 0⟩ false ⟨⟨0, 0, 0⟩, ⟨0, 0, 0⟩, ⟨0, 0, 0⟩, 1⟩ 0

/-- Claim C6 (code bug): the snow wrap is intended to keep particles inside
the band `[-50, 50]` (width 100 centred at 0), but the JavaScript `%`
operator keeps the dividend's sign, so once a particle has fallen more than
50 units its wrapped position lies in `(-150, -50)`, outside the claimed
band. Evaluation at the failing input: a particle starting at `y = 0` with
fall speed `0.04` sits at wrapped position `-60 < -50` at `t = 300`. -/
theorem c6_theorem :
    snowLoopY ⟨0, 0, 0, 1 / 25, 0, 0, 0, 1⟩ 300 = -60 ∧ ((-60 : ℝ) < -50) := by
  have hc : ⌈((-10 : ℝ) / 100)⌉ = 0 := by
    rw [Int.ceil_eq_iff]
    constructor <;> norm_num
  constructor
  · have h1 : snowY ⟨0, 0, 0, 1 / 25, 0, 0, 0, 1⟩ 300 = -60 := by
      simp [snowY]
      norm_num
    simp only [snowLoopY, h1]
    have h2 : (-60 : ℝ) + 100 / 2 = -10 := by norm_num
    rw [h2, jsRem, jsTrunc, if_neg (by norm_num : ¬ (0 : ℝ) ≤ (-10) / 100), hc]
    norm_num
  · norm_num

/-- The cube root of `1/8` drawn by the inverse-CDF radius law. -/
lemma jsCbrt_eighth : jsCbrt (1 / 8) = 1 / 2 := by
  unfold jsCbrt
  rw [if_pos (by norm_num : (0 : ℝ) ≤ 1 / 8)]
  have h8 : ((1 : ℝ) / 8) = ((1 : ℝ) / 2) ^ (3 : ℕ) := by norm_num
  rw [h8, ← Real.rpow_natCast ((1 : ℝ) / 2) 3,
    ← Real.rpow_mul (by norm_num : (0 : ℝ) ≤ 1 / 2)]
  norm_num

/-- Claim C7, counterexample: the star's scatter position is NOT drawn with
the cube-root radius law at `R = 40` — its radius is the fixed constant 40.
At direction draws giving `phi = acos(1) = 0`, the star's z-coordinate is 40
for every radius draw, while the claimed inverse-CDF scheme at radius draw
`u = 1/8` would give `40 * cbrt(1/8) = 20`. -/
theorem c7_counterexample :
    (starScatterPos 0 1).z = 40 ∧
    (specSphereSample 40 (1 / 8) 0 1).z = 20 ∧
    ((40 : ℝ) ≠ 20) := by
  refine ⟨?_, ?_, by norm_num⟩
  · show (40 : ℝ) * Real.cos (Real.arccos (2 * 1 - 1)) = 40
    norm_num [Real.arccos_one]
  · show (40 : ℝ) * jsCbrt (1 / 8) * Real.cos (Real.arccos (2 * 1 - 1)) = 20
    norm_num [jsCbrt_eighth, Real.arccos_one]

/-- Claim C7 (amended): the instanced groups sample their scatter position
exactly by the claimed inverse-CDF scheme with `R = 35`
(`radius = 35 * cbrt(u)`, `theta` uniform, `phi = acos(2u - 1)`), while the
star samples only an isotropic direction at the FIXED radius 40 (its scatter
position always lies on the sphere of radius 40, not inside it). -/
theorem c7_theorem (u0 u1 u2 : ℝ) :
    morphScatterPos u0 u1 u2 = specSphereSample 35 u0 u1 u2 ∧
    normSq (starScatterPos u0 u1) = 1600 := by
  constructor
  · rfl
  · have h1 := Real.sin_sq_add_cos_sq (u0 * Real.pi * 2)
    have h2 := Real.sin_sq_add_cos_sq (Real.arccos (2 * u1 - 1))
    simp only [normSq, starScatterPos]
    nlinarith [h1, h2]

/-- Claim C8 (confirmed): every per-frame callback first checks its render
handle; when it is not yet initialized the whole update is skipped — the
state is returned unchanged and nothing is computed or thrown. -/
theorem c8_theorem (st : TreeState) (cc : Bool) (data : List PositionData) (d t : ℝ)
    (cfg : LogoScatterConfig) (tp sp : Vec3) (light mat : Option ℝ)
    (ps : List SnowParticle) :
    morphFrame st cc data d t none = none ∧
    logoFrame st cfg tp d t none = none ∧
    starFrame st sp d t none light mat = (none, light, mat) ∧
    snowFrame ps t none = none :=
  ⟨rfl, rfl, rfl, rfl⟩

/-- Claim C9 (code bug): the layout array does have exactly `count` entries
and the per-frame blender never touches it, but it is NOT generated exactly
once — a re-render with a referentially fresh `config` object (which
Scene.tsx produces on every render, e.g. at each arrangement change) makes
the `data` useMemo regenerate the whole array with fresh randoms. -/
theorem c9_theorem (cfg : ParticleGroupConfig) (us us2 : ℕ → ℕ → ℝ)
    (c : MorphComponent) (st : TreeState) (cc : Bool) (d t : ℝ) :
    (morphData cfg.count cfg.scaleMultiplier us).length = cfg.count ∧
    (morphComponentFrame st cc d t c).data = c.data ∧
    (morphComponentFrame st cc d t c).configKey = c.configKey ∧
    morphRerender c.configKey cfg us2 c = c ∧
    morphRerender (c.configKey + 1) cfg us2 c =
      { c with configKey := c.configKey + 1
               data := morphData cfg.count cfg.scaleMultiplier us2 } := by
  refine ⟨?_, rfl, rfl, ?_, ?_⟩
  · simp [morphData]
  · simp [morphRerender]
  · simp [morphRerender, Nat.succ_ne_self]

/-- Claim C10 (confirmed): the App mounts with arrangement `TREE_SHAPE`; on
the first frame every component reads its absent stored factor as `0`
(`userData.factor ?? 0`), so the first-frame factor is the update applied to
`0`; and at blend factor `0` the blended position is exactly the scattered
position, so every object starts at its scattered position and morphs toward
the tree from there. -/
theorem c10_theorem (st : TreeState) (cc : Bool) (data : List PositionData) (d t : ℝ)
    (ts : List Transform3) (cfg : LogoScatterConfig) (tp p0 r0 : Vec3) (sc : ℝ)
    (sp : Vec3) (light mat : Option ℝ) (a b : Vec3) :
    appInit.tree = TreeState.TREE_SHAPE ∧
    (morphFrame st cc data d t (some ⟨none, ts⟩)).map MorphMesh.factor =
      some (some (morphNewFactor 0 st d)) ∧
    (logoFrame st cfg tp d t (some ⟨none, p0, r0⟩)).map LogoMesh.factor =
      some (some (logoNewFactor 0 st d)) ∧
    ((starFrame st sp d t (some ⟨none, p0, r0, sc⟩) light mat).1).map StarMesh.factor =
      some (some (starNewFactor 0 st d)) ∧
    morphNewFactor 0 TreeState.TREE_SHAPE d = d * 2.5 ∧
    lerpVec a b 0 = a ∧
    (logoFrame TreeState.TREE_SHAPE cfg tp 0 t (some ⟨none, p0, r0⟩)).map LogoMesh.position =
      some cfg.pos ∧
    ((starFrame TreeState.TREE_SHAPE sp 0 t (some ⟨none, p0, r0, sc⟩) light mat).1).map
      StarMesh.position = some sp := by
  have hlf : logoNewFactor ((none : Option ℝ).getD 0) TreeState.TREE_SHAPE 0 = 0 := by
    norm_num [logoNewFactor, lerp, targetFactor]
  have hsf : starNewFactor ((none : Option ℝ).getD 0) TreeState.TREE_SHAPE 0 = 0 := by
    norm_num [starNewFactor, lerp, targetFactor]
  refine ⟨rfl, rfl, rfl, rfl, ?_, lerpVec_zero a b, ?_, ?_⟩
  · norm_num [morphNewFactor, lerp, targetFactor]
  · simp only [logoFrame, hlf]
    rw [if_neg (by norm_num : ¬ (0.8 : ℝ) < 0)]
    simp [lerpVec_zero]
  · simp only [starFrame, hsf]
    simp [lerpVec_zero]

end
